import Mathlib

/-
Verification development for the esp32 apns_sender firmware.

The definitions below are a shallow embedding, translated from the C
sources, of the three pieces the specification covers:
  * the DER -> raw ECDSA signature conversion and the JWT credential
    cache of the APNs client (apns.c, reproduced in full inside
    PLAN_push_token_mgmt.md),
  * the HTTP/2 request/response polling loop and its result
    classification (apns_send_notification),
  * the NVS-backed token registry (main/token_store.c) and the REST
    handlers / broadcast task that drive it (main/api_server.c).

Machine integers: all byte values are Nat (a DER buffer is a List Nat);
time_t is Int (signed).  Fallible C paths return explicit result values.
-/

/- ================================================================ -/
/- Section 1: der_sig_to_raw (apns.c)                               -/
/- ================================================================ -/

/-- Result of running der_sig_to_raw on an input buffer.  `ok raw` is the
C function returning 0 having written the 64 output bytes; `err` is the C
function returning -1; `oob` marks an execution in which the C code reads
memory outside the input buffer `der[0 .. der_len)` (undefined behavior in
the C source; the embedding makes every buffer read bounds-instrumented so
such executions are visible). -/
inductive DerResult where
  | ok (raw : List Nat)
  | err
  | oob
deriving DecidableEq, Repr

/-- Content of one 32-byte output slot, translated from the copy logic of
der_sig_to_raw: `memset` zeroes the slot, then if the INTEGER length
exceeds 32 the leading (len-32) bytes are skipped and the trailing 32
copied; otherwise the bytes are copied right-aligned, leaving the leading
(32-len) bytes zero. -/
def intSlot (b : List Nat) : List Nat :=
  if 32 < b.length then b.drop (b.length - 32)
  else List.replicate (32 - b.length) 0 ++ b

/-- Value of the C local r_len = der[3] (read is guarded by der_len >= 8). -/
def derRLen (der : List Nat) : Nat := der.getD 3 0

/-- Value of the C local pos = 4 + r_len at the second INTEGER tag. -/
def derPos (der : List Nat) : Nat := 4 + derRLen der

/-- Value of the C local s_len = der[pos+1]. -/
def derSLen (der : List Nat) : Nat := der.getD (derPos der + 1) 0

/-- Shallow embedding of der_sig_to_raw (apns.c).  The C control flow is
kept exactly: reject when der_len < 8 or der[0] != 0x30; check der[2] is
an INTEGER tag; read r_len = der[3]; with pos = 4 + r_len, reject when
pos >= der_len or der[pos] != 0x02; read s_len = der[pos+1]; then copy
the two integers into the 64-byte output.  Reads the C performs without
a bounds check get an explicit bound test here and produce `oob` when
outside the buffer: the s_len read at der[pos+1] (the C check only
guarantees pos < der_len) and the s-bytes memcpy, whose last byte sits
at der[pos+1+s_len].  The r-bytes memcpy is always in bounds at that
point because pos = 4 + r_len < der_len, so it needs no oob case. -/
def der_sig_to_raw (der : List Nat) : DerResult :=
  if der.length < 8 then .err
  else if der.getD 0 0 ≠ 0x30 then .err
  else if der.getD 2 0 ≠ 0x02 then .err
  else if der.length ≤ derPos der then .err
  else if der.getD (derPos der) 0 ≠ 0x02 then .err
  else if der.length ≤ derPos der + 1 then .oob
  else if der.length < derPos der + 2 + derSLen der then .oob
  else .ok (intSlot ((der.drop 4).take (derRLen der)) ++
            intSlot ((der.drop (derPos der + 2)).take (derSLen der)))

theorem intSlot_length (b : List Nat) : (intSlot b).length = 32 := by
  unfold intSlot
  split <;> simp <;> omega

theorem getD_cons4 (a b c d e : Nat) (l : List Nat) (n : Nat) :
    (a :: b :: c :: d :: l).getD (4 + n) e = l.getD n e := by
  have h : 4 + n = n + 4 := by omega
  rw [h]
  rfl

theorem getD_cons4s (a b c d e : Nat) (l : List Nat) (n : Nat) :
    (a :: b :: c :: d :: l).getD (4 + n + 1) e = l.getD (n + 1) e := by
  have h : 4 + n + 1 = n + 1 + 4 := by omega
  rw [h]
  rfl

theorem drop_cons4 (a b c d : Nat) (l : List Nat) (n : Nat) :
    (a :: b :: c :: d :: l).drop (4 + n + 2) = l.drop (n + 2) := by
  have h : 4 + n + 2 = n + 2 + 4 := by omega
  rw [h]
  rfl

/-- C1: for every well-formed DER ECDSA signature buffer of shape
`30 <len> 02 <rlen> <r-bytes> 02 <slen> <s-bytes>` (both INTEGERs
non-empty; the <len> byte is not even inspected by the code),
der_sig_to_raw succeeds (C return value 0) and the 64 output bytes are
the two 32-byte slots: bytes 0..31 hold r and bytes 32..63 hold s, each
normalised exactly as the copy logic states — an integer longer than 32
bytes loses its leading (len-32) bytes, a shorter one is right-aligned in
a zero-filled 32-byte slot. -/
theorem der_sig_to_raw_wellformed (lenB rLen sLen : Nat) (r s : List Nat)
    (hr : r.length = rLen) (hs : s.length = sLen)
    (hr1 : 1 ≤ rLen) (hs1 : 1 ≤ sLen) :
    der_sig_to_raw (0x30 :: lenB :: 0x02 :: rLen :: (r ++ (0x02 :: sLen :: s))) =
      .ok (intSlot r ++ intSlot s) ∧
    (intSlot r ++ intSlot s).length = 64 ∧
    (intSlot r ++ intSlot s).take 32 = intSlot r ∧
    (intSlot r ++ intSlot s).drop 32 = intSlot s := by
  have hlen : (0x30 :: lenB :: 0x02 :: rLen :: (r ++ (0x02 :: sLen :: s))).length
      = 6 + rLen + sLen := by
    simp [hr, hs]; omega
  have hA : derRLen (0x30 :: lenB :: 0x02 :: rLen :: (r ++ (0x02 :: sLen :: s))) = rLen := rfl
  have hB : derPos (0x30 :: lenB :: 0x02 :: rLen :: (r ++ (0x02 :: sLen :: s))) = 4 + rLen := by
    rw [derPos, hA]
  have hpos2 : (0x30 :: lenB :: 0x02 :: rLen :: (r ++ (0x02 :: sLen :: s))).getD
      (derPos (0x30 :: lenB :: 0x02 :: rLen :: (r ++ (0x02 :: sLen :: s)))) 0 = 0x02 := by
    rw [hB, getD_cons4, List.getD_eq_get?, List.get?_append_right (by omega)]
    have h0 : rLen - r.length = 0 := by omega
    rw [h0]
    rfl
  have hS : derSLen (0x30 :: lenB :: 0x02 :: rLen :: (r ++ (0x02 :: sLen :: s))) = sLen := by
    rw [derSLen, hB, getD_cons4s, List.getD_eq_get?, List.get?_append_right (by omega)]
    have h1 : rLen + 1 - r.length = 1 := by omega
    rw [h1]
    rfl
  have htake : ((0x30 :: lenB :: 0x02 :: rLen :: (r ++ (0x02 :: sLen :: s))).drop 4).take
      (derRLen (0x30 :: lenB :: 0x02 :: rLen :: (r ++ (0x02 :: sLen :: s)))) = r := by
    rw [hA]
    show (r ++ (0x02 :: sLen :: s)).take rLen = r
    rw [← hr, List.take_left]
  have hdrop : ((0x30 :: lenB :: 0x02 :: rLen :: (r ++ (0x02 :: sLen :: s))).drop
      (derPos (0x30 :: lenB :: 0x02 :: rLen :: (r ++ (0x02 :: sLen :: s))) + 2)).take
      (derSLen (0x30 :: lenB :: 0x02 :: rLen :: (r ++ (0x02 :: sLen :: s)))) = s := by
    rw [hS, hB, drop_cons4]
    have h2 : rLen + 2 = r.length + 2 := by omega
    rw [h2, List.drop_append]
    show s.take sLen = s
    rw [← hs, List.take_length]
  refine ⟨?_, ?_, ?_, ?_⟩
  · unfold der_sig_to_raw
    rw [if_neg (by omega)]
    rw [if_neg (by intro hcon; exact hcon rfl)]
    rw [if_neg (by intro hcon; exact hcon rfl)]
    rw [if_neg (by rw [hB]; omega)]
    rw [if_neg (by rw [hpos2]; intro hcon; exact hcon rfl)]
    rw [if_neg (by rw [hB]; omega)]
    rw [if_neg (by rw [hB, hS]; omega)]
    rw [htake, hdrop]
  · simp [intSlot_length]
  · have h32 : (intSlot r).length = 32 := intSlot_length r
    rw [← h32, List.take_left]
  · have h32 : (intSlot r).length = 32 := intSlot_length r
    rw [← h32, List.drop_left]

/-- Witness for C1 at a concrete well-formed buffer: r = [0x05, 0x06],
s = [0x07] (so rlen = 2, slen = 1, len byte 0x07). -/
theorem der_sig_to_raw_wellformed_witness :
    der_sig_to_raw [0x30, 0x07, 0x02, 0x02, 0x05, 0x06, 0x02, 0x01, 0x07] =
      .ok (intSlot [0x05, 0x06] ++ intSlot [0x07]) ∧
    (intSlot [0x05, 0x06] ++ intSlot [0x07]).length = 64 ∧
    (intSlot [0x05, 0x06] ++ intSlot [0x07]).take 32 = intSlot [0x05, 0x06] ∧
    (intSlot [0x05, 0x06] ++ intSlot [0x07]).drop 32 = intSlot [0x07] :=
  der_sig_to_raw_wellformed 0x07 2 1 [0x05, 0x06] [0x07]
    (by decide) (by decide) (by decide) (by decide)

/-- C2: refuted on the code — der_sig_to_raw is not memory-safe on every
input.  On the truncated 8-byte buffer 30 06 02 01 AA 02 20 BB the header
and both INTEGER tags parse (r_len = 1, and der[5] = 0x02 at pos = 5 <
der_len = 8), the claimed s_len = 0x20 = 32, and the final memcpy then
reads s bytes der[7..38], 31 bytes past the end of the buffer: an
out-of-bounds read, not the claimed -1 format error.  (The spec's intent
— truncation is a format error, never an OOB access — is clear from the
checks that do exist, so this is a bug in the code, not in the claim.) -/
theorem der_sig_to_raw_oob_on_truncated :
    der_sig_to_raw [0x30, 0x06, 0x02, 0x01, 0xAA, 0x02, 0x20, 0xBB] =
      DerResult.oob := by
  decide

/- ================================================================ -/
/- Section 2: token registry, map view (main/token_store.c)         -/
/- ================================================================ -/

/-- One NVS namespace, viewed as the key-value map it implements:
identity key (device IPv4 string) to stored device-token string. -/
def Ns : Type := String → Option String

/-- nvs_set_str + nvs_commit on one namespace (success path). -/
def ns_set (ns : Ns) (key value : String) : Ns :=
  fun k => if k = key then some value else ns k

/-- nvs_get_str on one namespace: ESP_OK with the value iff present. -/
def ns_get (ns : Ns) (key : String) : Option String := ns key

/-- nvs_erase_key + nvs_commit on one namespace (success path). -/
def ns_del (ns : Ns) (key : String) : Ns :=
  fun k => if k = key then none else ns k

/-- The four NVS namespaces of token_store.c: tok_snd_s, tok_snd_p,
tok_blk_s, tok_blk_p. -/
@[ext]
structure StoreState where
  send_s : Ns
  send_p : Ns
  block_s : Ns
  block_p : Ns

/-- send_ns / block_ns selector: strcmp(server_type, "production") == 0
picks the production namespace, anything else the sandbox one. -/
def is_production (server_type : String) : Bool := server_type = "production"

/-- token_store_send_set: write into the send namespace of the given
server_type. -/
def token_store_send_set (st : StoreState) (server_type ip token : String) : StoreState :=
  if is_production server_type
  then { st with send_p := ns_set st.send_p ip token }
  else { st with send_s := ns_set st.send_s ip token }

/-- token_store_send_get: look up in the send namespace of the given
server_type. -/
def token_store_send_get (st : StoreState) (server_type ip : String) : Option String :=
  if is_production server_type then ns_get st.send_p ip else ns_get st.send_s ip

/-- token_store_block_set: the C function takes no server_type and writes
the pair into BOTH block namespaces (sandbox and production). -/
def token_store_block_set (st : StoreState) (ip token : String) : StoreState :=
  { st with block_s := ns_set st.block_s ip token,
            block_p := ns_set st.block_p ip token }

/-- token_store_block_get: look up in the block namespace of the given
server_type. -/
def token_store_block_get (st : StoreState) (server_type ip : String) : Option String :=
  if is_production server_type then ns_get st.block_p ip else ns_get st.block_s ip

/-- token_store_move_to_block: for each server type independently, if the
ip has a send-list record, copy it into the block list then delete it
from the send list; the returned Bool is the C `moved` flag (ESP_OK iff
true, ESP_ERR_NVS_NOT_FOUND otherwise). -/
def token_store_move_to_block (st : StoreState) (ip : String) : StoreState × Bool :=
  let step1 :=
    match ns_get st.send_s ip with
    | some tok => ({ st with block_s := ns_set st.block_s ip tok,
                             send_s := ns_del st.send_s ip }, true)
    | none => (st, false)
  match ns_get step1.1.send_p ip with
  | some tok => ({ step1.1 with block_p := ns_set step1.1.block_p ip tok,
                                send_p := ns_del step1.1.send_p ip }, true)
  | none => step1

/-- token_store_move_to_send: the symmetric move, block list to send
list, again per server type with a `moved` success flag. -/
def token_store_move_to_send (st : StoreState) (ip : String) : StoreState × Bool :=
  let step1 :=
    match ns_get st.block_s ip with
    | some tok => ({ st with send_s := ns_set st.send_s ip tok,
                             block_s := ns_del st.block_s ip }, true)
    | none => (st, false)
  match ns_get step1.1.block_p ip with
  | some tok => ({ step1.1 with send_p := ns_set step1.1.send_p ip tok,
                                block_p := ns_del step1.1.block_p ip }, true)
  | none => step1

/-- Outcome values of token_register_handler (api_server.c): the JSON
status strings "ignored/blocked", "ignored/no_change" and "ok". -/
inductive RegOutcome where
  | blocked
  | no_change
  | reg_ok
deriving DecidableEq, Repr

/-- token_register_handler (api_server.c), after request validation:
guard 1 ignores the request when the ip is in the block list of the
requested server_type; guard 2 ignores it when the identical ip/token
pair is already in that send list; otherwise it upserts into the send
list.  The returned state is the store after the call (success path of
the final write). -/
def token_register (st : StoreState) (server_type ip token : String) :
    StoreState × RegOutcome :=
  match token_store_block_get st server_type ip with
  | some _ => (st, .blocked)
  | none =>
    match token_store_send_get st server_type ip with
    | some existing =>
      if existing = token then (st, .no_change)
      else (token_store_send_set st server_type ip token, .reg_ok)
    | none => (token_store_send_set st server_type ip token, .reg_ok)

/-- The everywhere-empty namespace. -/
def ns0 : Ns := fun _ => none

/-- The empty registry state. -/
def stEmpty : StoreState := ⟨ns0, ns0, ns0, ns0⟩

/-- C5: token_register is the three-way case split of
token_register_handler.  If the block (Deny) store of the requested
server_type holds the ip, the outcome is "blocked" and the whole store
state — in particular the Allow store, whatever it holds for that key —
is untouched.  Else if the send (Allow) store of that server_type holds
the identical token, the outcome is "no_change" and nothing is written.
Otherwise the pair is upserted into the Allow store of that server_type
(lookup there now yields the token, all other keys unchanged, the Deny
stores unchanged) and the outcome is "ok". -/
theorem token_register_cases (st : StoreState) (server_type ip token : String) :
    (token_store_block_get st server_type ip ≠ none →
       token_register st server_type ip token = (st, RegOutcome.blocked)) ∧
    (token_store_block_get st server_type ip = none →
     token_store_send_get st server_type ip = some token →
       token_register st server_type ip token = (st, RegOutcome.no_change)) ∧
    (token_store_block_get st server_type ip = none →
     token_store_send_get st server_type ip ≠ some token →
       (token_register st server_type ip token).2 = RegOutcome.reg_ok ∧
       token_store_send_get (token_register st server_type ip token).1 server_type ip
         = some token ∧
       (∀ k, k ≠ ip →
         token_store_send_get (token_register st server_type ip token).1 server_type k
           = token_store_send_get st server_type k) ∧
       (token_register st server_type ip token).1.block_s = st.block_s ∧
       (token_register st server_type ip token).1.block_p = st.block_p) := by
  refine ⟨?_, ?_, ?_⟩
  · intro hbg
    cases hb : token_store_block_get st server_type ip with
    | some v => simp [token_register, hb]
    | none => exact absurd hb hbg
  · intro hbg hsg
    simp [token_register, hbg, hsg]
  · intro hbg hsg
    have hmain : (token_register st server_type ip token).1
        = token_store_send_set st server_type ip token ∧
        (token_register st server_type ip token).2 = RegOutcome.reg_ok := by
      cases hs : token_store_send_get st server_type ip with
      | some existing =>
        have hne : existing ≠ token := by
          intro he; exact hsg (he ▸ hs)
        simp [token_register, hbg, hs, hne]
      | none => simp [token_register, hbg, hs]
    refine ⟨hmain.2, ?_, ?_, ?_, ?_⟩
    · rw [hmain.1]
      unfold token_store_send_set token_store_send_get
      cases hp : is_production server_type <;> simp [hp, ns_get, ns_set]
    · intro k hk
      rw [hmain.1]
      unfold token_store_send_set token_store_send_get
      cases hp : is_production server_type <;> simp [hp, ns_get, ns_set, hk]
    · rw [hmain.1]
      unfold token_store_send_set
      cases hp : is_production server_type <;> simp [hp]
    · rw [hmain.1]
      unfold token_store_send_set
      cases hp : is_production server_type <;> simp [hp]

/-- Witness for C5: the three cases at concrete stores — a blocked ip, an
identical already-registered pair, and a fresh registration. -/
theorem token_register_cases_witness :
    token_register { stEmpty with block_s := ns_set ns0 "10.0.0.1" "tokB" }
        "sandbox" "10.0.0.1" "tokA"
      = ({ stEmpty with block_s := ns_set ns0 "10.0.0.1" "tokB" }, RegOutcome.blocked) ∧
    token_register { stEmpty with send_s := ns_set ns0 "10.0.0.1" "tokA" }
        "sandbox" "10.0.0.1" "tokA"
      = ({ stEmpty with send_s := ns_set ns0 "10.0.0.1" "tokA" }, RegOutcome.no_change) ∧
    (token_register stEmpty "sandbox" "10.0.0.1" "tokA").2 = RegOutcome.reg_ok := by
  refine ⟨?_, ?_, ?_⟩
  · exact (token_register_cases { stEmpty with block_s := ns_set ns0 "10.0.0.1" "tokB" }
      "sandbox" "10.0.0.1" "tokA").1 (by decide)
  · exact (token_register_cases { stEmpty with send_s := ns_set ns0 "10.0.0.1" "tokA" }
      "sandbox" "10.0.0.1" "tokA").2.1 (by decide) (by decide)
  · exact ((token_register_cases stEmpty "sandbox" "10.0.0.1" "tokA").2.2
      (by decide) (by decide)).1

/-- C7 counterexample: the claim says every successful list_set writes a
single (list, environment) store and leaves the other three unchanged.
The Deny-list setter of the code, token_store_block_set, takes no
environment argument at all and writes the pair into BOTH block
namespaces: starting from the empty store, one call fills the sandbox
and the production Deny store alike, so whichever single environment the
claim assigns to the call, another store changed too. -/
theorem token_store_block_set_writes_both_envs :
    (token_store_block_set stEmpty "10.0.0.1" "tokA").block_s "10.0.0.1" = some "tokA" ∧
    (token_store_block_set stEmpty "10.0.0.1" "tokA").block_p "10.0.0.1" = some "tokA" ∧
    stEmpty.block_s "10.0.0.1" = none ∧
    stEmpty.block_p "10.0.0.1" = none := by
  refine ⟨?_, ?_, rfl, rfl⟩ <;> simp [token_store_block_set, ns_set]

/-- C7 amended: a successful send-list (Allow) set writes only the send
store of the requested server_type, updating exactly the given key, and
leaves the other three stores unchanged; the block-list (Deny) setter
has no environment parameter and writes the pair into BOTH block stores
(each updated exactly at the given key), leaving the two send stores
unchanged. -/
theorem list_set_frame (st : StoreState) (server_type ip token : String) :
    (is_production server_type = true →
       (∀ k, (token_store_send_set st server_type ip token).send_p k
          = if k = ip then some token else st.send_p k) ∧
       (token_store_send_set st server_type ip token).send_s = st.send_s ∧
       (token_store_send_set st server_type ip token).block_s = st.block_s ∧
       (token_store_send_set st server_type ip token).block_p = st.block_p) ∧
    (is_production server_type = false →
       (∀ k, (token_store_send_set st server_type ip token).send_s k
          = if k = ip then some token else st.send_s k) ∧
       (token_store_send_set st server_type ip token).send_p = st.send_p ∧
       (token_store_send_set st server_type ip token).block_s = st.block_s ∧
       (token_store_send_set st server_type ip token).block_p = st.block_p) ∧
    (∀ k, (token_store_block_set st ip token).block_s k
       = if k = ip then some token else st.block_s k) ∧
    (∀ k, (token_store_block_set st ip token).block_p k
       = if k = ip then some token else st.block_p k) ∧
    (token_store_block_set st ip token).send_s = st.send_s ∧
    (token_store_block_set st ip token).send_p = st.send_p := by
  refine ⟨?_, ?_, ?_, ?_, rfl, rfl⟩
  · intro hp
    simp [token_store_send_set, hp, ns_set]
  · intro hp
    simp [token_store_send_set, hp, ns_set]
  · intro k
    simp [token_store_block_set, ns_set]
  · intro k
    simp [token_store_block_set, ns_set]

/-- Witness for C7's amended statement: both branches of the server_type
split and the Deny setter, at concrete keys. -/
theorem list_set_frame_witness :
    (token_store_send_set stEmpty "production" "10.0.0.1" "tokA").send_p "10.0.0.1"
      = some "tokA" ∧
    (token_store_send_set stEmpty "sandbox" "10.0.0.1" "tokA").send_s "10.0.0.1"
      = some "tokA" ∧
    (token_store_block_set stEmpty "10.0.0.1" "tokA").send_s = stEmpty.send_s := by
  refine ⟨?_, ?_, (list_set_frame stEmpty "production" "10.0.0.1" "tokA").2.2.2.2.1⟩
  · have h := ((list_set_frame stEmpty "production" "10.0.0.1" "tokA").1 (by decide)).1
      "10.0.0.1"
    simpa using h
  · have h := ((list_set_frame stEmpty "sandbox" "10.0.0.1" "tokA").2.1 (by decide)).1
      "10.0.0.1"
    simpa using h

/-- C8: for a key that sits in the send (Allow) list of at least one
server type and in the block (Deny) list of neither, move_to_block
followed by move_to_send reports success twice and restores the store
state exactly (all underlying NVS operations modelled on their success
path, no intervening mutation). -/
theorem move_round_trip (st : StoreState) (ip : String)
    (hA : st.send_s ip ≠ none ∨ st.send_p ip ≠ none)
    (hD1 : st.block_s ip = none) (hD2 : st.block_p ip = none) :
    (token_store_move_to_block st ip).2 = true ∧
    (token_store_move_to_send (token_store_move_to_block st ip).1 ip).2 = true ∧
    (token_store_move_to_send (token_store_move_to_block st ip).1 ip).1 = st := by
  cases hss : st.send_s ip with
  | some a =>
    cases hsp : st.send_p ip with
    | some b =>
      refine ⟨?_, ?_, ?_⟩
      · simp [token_store_move_to_block, ns_get, hss, hsp]
      · simp [token_store_move_to_block, token_store_move_to_send,
              ns_get, ns_set, ns_del, hss, hsp, hD1, hD2]
      · apply StoreState.ext <;> funext k <;> by_cases hk : k = ip <;>
          simp [token_store_move_to_block, token_store_move_to_send,
                ns_get, ns_set, ns_del, hss, hsp, hD1, hD2, hk]
    | none =>
      refine ⟨?_, ?_, ?_⟩
      · simp [token_store_move_to_block, ns_get, hss, hsp]
      · simp [token_store_move_to_block, token_store_move_to_send,
              ns_get, ns_set, ns_del, hss, hsp, hD1, hD2]
      · apply StoreState.ext <;> funext k <;> by_cases hk : k = ip <;>
          simp [token_store_move_to_block, token_store_move_to_send,
                ns_get, ns_set, ns_del, hss, hsp, hD1, hD2, hk]
  | none =>
    cases hsp : st.send_p ip with
    | some b =>
      refine ⟨?_, ?_, ?_⟩
      · simp [token_store_move_to_block, ns_get, hss, hsp]
      · simp [token_store_move_to_block, token_store_move_to_send,
              ns_get, ns_set, ns_del, hss, hsp, hD1, hD2]
      · apply StoreState.ext <;> funext k <;> by_cases hk : k = ip <;>
          simp [token_store_move_to_block, token_store_move_to_send,
                ns_get, ns_set, ns_del, hss, hsp, hD1, hD2, hk]
    | none =>
      rcases hA with h | h
      · exact absurd hss h
      · exact absurd hsp h

/-- Witness for C8 at a concrete store: the key sits in the sandbox send
list only and in no block list. -/
theorem move_round_trip_witness :
    (token_store_move_to_block
        { stEmpty with send_s := ns_set ns0 "10.0.0.7" "tokS" } "10.0.0.7").2 = true ∧
    (token_store_move_to_send
        (token_store_move_to_block
          { stEmpty with send_s := ns_set ns0 "10.0.0.7" "tokS" } "10.0.0.7").1
        "10.0.0.7").2 = true ∧
    (token_store_move_to_send
        (token_store_move_to_block
          { stEmpty with send_s := ns_set ns0 "10.0.0.7" "tokS" } "10.0.0.7").1
        "10.0.0.7").1 = { stEmpty with send_s := ns_set ns0 "10.0.0.7" "tokS" } :=
  move_round_trip { stEmpty with send_s := ns_set ns0 "10.0.0.7" "tokS" } "10.0.0.7"
    (Or.inl (by decide)) rfl rfl

/- ================================================================ -/
/- Section 3: token registry, enumeration view (token_store.c)      -/
/- ================================================================ -/

/-- One entry produced by the list operations: token_entry_t with its ip
key, token value and the server_type tag filled in by ns_list_tagged.
(ip is at most 15 chars and token at most 99 by NVS key/value limits, so
the strncpy truncation in the C loop never cuts anything.) -/
structure TokenEntry where
  ip : String
  token : String
  server_type : String
deriving DecidableEq, Repr

/-- Error codes of the enumeration and send paths (esp_err_t values used
by the embedded functions; distinct constructors for distinct C values:
ESP_OK, ESP_FAIL, ESP_ERR_NVS_NOT_FOUND, APNS_ERR_UNREGISTERED). -/
inductive EspErr where
  | ok
  | fail
  | not_found
  | unregistered
deriving DecidableEq, Repr

/-- The iterator loop body of ns_list_tagged: walk the namespace entries
in iteration order, copying key, token and the server_type tag, while
count < max (the per-entry nvs_get_str is modelled on its success
path). -/
def listLoop (server_type : String) : List (String × String) → Nat → List TokenEntry
  | [], _ => []
  | _, 0 => []
  | kv :: rest, Nat.succ m => ⟨kv.1, kv.2, server_type⟩ :: listLoop server_type rest m

/-- ns_list_tagged: on a namespace whose nvs_entry_find / nvs_open step
fails (the `enum_fail` flag) it returns the error with zero entries; an
empty namespace (ESP_ERR_NVS_NOT_FOUND from nvs_entry_find) and a
successful walk both return ESP_OK.  The namespace argument is the
key/value sequence its NVS iterator yields. -/
def ns_list_tagged (enum_fail : Bool) (ns : List (String × String))
    (server_type : String) (max : Nat) : List TokenEntry × EspErr :=
  if enum_fail then ([], .fail) else (listLoop server_type ns max, .ok)

/-- token_store_send_list: enumerate the sandbox send namespace first,
then — only if capacity remains — the production one into the remaining
slots; both ns_list_tagged return values are discarded and the function
returns ESP_OK unconditionally. -/
def token_store_send_list (f1 f2 : Bool) (sns pns : List (String × String))
    (max : Nat) : List TokenEntry × EspErr :=
  let l1 := (ns_list_tagged f1 sns "sandbox" max).1
  let l2 := if l1.length < max
            then (ns_list_tagged f2 pns "production" (max - l1.length)).1
            else []
  (l1 ++ l2, .ok)

/-- token_store_block_list: identical algorithm over the two block
namespaces (the C body is a duplicate of token_store_send_list). -/
def token_store_block_list (f1 f2 : Bool) (sns pns : List (String × String))
    (max : Nat) : List TokenEntry × EspErr :=
  let l1 := (ns_list_tagged f1 sns "sandbox" max).1
  let l2 := if l1.length < max
            then (ns_list_tagged f2 pns "production" (max - l1.length)).1
            else []
  (l1 ++ l2, .ok)

/-- Tagging a key/value list with a server_type, the shape listLoop
produces. -/
def tagEntries (ns : List (String × String)) (server_type : String) : List TokenEntry :=
  ns.map fun kv => ⟨kv.1, kv.2, server_type⟩

theorem listLoop_eq_take (server_type : String) :
    ∀ (ns : List (String × String)) (max : Nat),
      listLoop server_type ns max = tagEntries (ns.take max) server_type := by
  intro ns
  induction ns with
  | nil => intro max; cases max <;> rfl
  | cons kv rest ih =>
    intro max
    cases max with
    | zero => rfl
    | succ m => simp [listLoop, tagEntries, ih m]

/-- C10: the unfiltered enumerations place all sandbox entries first (up
to max) and production entries only in the remaining capacity — when the
sandbox namespace alone yields max entries no production entry appears —
and they return ESP_OK unconditionally: a failing per-namespace
enumeration is swallowed and simply contributes zero entries. -/
theorem unfiltered_list_spec (f1 f2 : Bool) (sns pns : List (String × String))
    (max : Nat) :
    (token_store_send_list f1 f2 sns pns max).2 = EspErr.ok ∧
    (token_store_block_list f1 f2 sns pns max).2 = EspErr.ok ∧
    (f1 = false → max ≤ sns.length →
       (token_store_send_list f1 f2 sns pns max).1 = tagEntries (sns.take max) "sandbox" ∧
       (token_store_block_list f1 f2 sns pns max).1 = tagEntries (sns.take max) "sandbox" ∧
       ∀ e ∈ (token_store_send_list f1 f2 sns pns max).1, e.server_type = "sandbox") ∧
    (f1 = false → f2 = false → sns.length < max →
       (token_store_send_list f1 f2 sns pns max).1 =
         tagEntries sns "sandbox" ++
         tagEntries (pns.take (max - sns.length)) "production") ∧
    (f1 = true → f2 = false →
       (token_store_send_list f1 f2 sns pns max).1 =
         tagEntries (pns.take max) "production") ∧
    (f1 = true → f2 = true →
       (token_store_send_list f1 f2 sns pns max).1 = []) := by
  refine ⟨rfl, rfl, ?_, ?_, ?_, ?_⟩
  · intro h1 h2
    have hlen1 : (tagEntries (sns.take max) "sandbox").length = max := by
      simp [tagEntries, List.length_take]
      omega
    have hsend : (token_store_send_list f1 f2 sns pns max).1
        = tagEntries (sns.take max) "sandbox" := by
      simp [token_store_send_list, ns_list_tagged, h1, hlen1, listLoop_eq_take]
    have hblock : (token_store_block_list f1 f2 sns pns max).1
        = tagEntries (sns.take max) "sandbox" := by
      simp [token_store_block_list, ns_list_tagged, h1, hlen1, listLoop_eq_take]
    refine ⟨hsend, hblock, ?_⟩
    intro e he
    rw [hsend] at he
    simp only [tagEntries, List.mem_map] at he
    rcases he with ⟨kv, _, hkv⟩
    rw [← hkv]
  · intro h1 h2 h3
    have htk : sns.take max = sns := List.take_of_length_le (by omega)
    have hlen1 : (tagEntries sns "sandbox").length = sns.length := by
      simp [tagEntries]
    simp [token_store_send_list, ns_list_tagged, h1, h2, hlen1, h3,
          listLoop_eq_take, htk]
  · intro h1 h2
    by_cases hm : 0 < max
    · simp [token_store_send_list, ns_list_tagged, h1, h2, hm, listLoop_eq_take]
    · have hm0 : max = 0 := by omega
      simp [token_store_send_list, ns_list_tagged, h1, h2, hm0, tagEntries]
  · intro h1 h2
    simp [token_store_send_list, ns_list_tagged, h1, h2]

/-- Witness for C10: the sandbox namespace alone fills max = 1 (no
production entry appears), and a failed sandbox enumeration contributes
zero entries while the call still reports ESP_OK. -/
theorem unfiltered_list_spec_witness :
    (token_store_send_list false false [("a", "t1"), ("b", "t2")] [("c", "t3")] 1).2
      = EspErr.ok ∧
    (token_store_send_list false false [("a", "t1"), ("b", "t2")] [("c", "t3")] 1).1
      = [⟨"a", "t1", "sandbox"⟩] ∧
    (token_store_send_list true false [("a", "t1"), ("b", "t2")] [("c", "t3")] 2).2
      = EspErr.ok ∧
    (token_store_send_list true false [("a", "t1"), ("b", "t2")] [("c", "t3")] 2).1
      = [⟨"c", "t3", "production"⟩] := by
  have h := unfiltered_list_spec false false [("a", "t1"), ("b", "t2")] [("c", "t3")] 1
  have h2 := unfiltered_list_spec true false [("a", "t1"), ("b", "t2")] [("c", "t3")] 2
  refine ⟨h.1, ?_, h2.1, ?_⟩
  · have he := (h.2.2.1 rfl (by decide)).1
    simpa [tagEntries] using he
  · have he := h2.2.2.2.2.1 rfl rfl
    simpa [tagEntries] using he

/- ================================================================ -/
/- Section 4: broadcast task (api_server.c blast_task)              -/
/- ================================================================ -/

/-- The per-recipient loop of blast_task: walk the enumerated entries in
order, call apns_send_notification once per entry (its result abstracted
as the send_result oracle), bump ok on ESP_OK and fail otherwise, and
record the sequence of entries passed to the send call.  Result:
(ok counter, fail counter, call trace). -/
def blast_loop (send_result : TokenEntry → EspErr) (entries : List TokenEntry)
    (okc flc : Nat) (calls : List TokenEntry) : Nat × Nat × List TokenEntry :=
  match entries with
  | [] => (okc, flc, calls)
  | e :: rest =>
    if send_result e = EspErr.ok
    then blast_loop send_result rest (okc + 1) flc (calls ++ [e])
    else blast_loop send_result rest okc (flc + 1) (calls ++ [e])

/-- blast_task (api_server.c): run the loop over the enumerated send
list with zeroed counters. -/
def blast_task (send_result : TokenEntry → EspErr) (entries : List TokenEntry) :
    Nat × Nat × List TokenEntry :=
  blast_loop send_result entries 0 0 []

theorem blast_loop_spec (f : TokenEntry → EspErr) :
    ∀ (entries : List TokenEntry) (okc flc : Nat) (calls : List TokenEntry),
      blast_loop f entries okc flc calls
        = (okc + entries.countP (fun e => decide (f e = EspErr.ok)),
           flc + entries.countP (fun e => decide (f e ≠ EspErr.ok)),
           calls ++ entries) := by
  intro entries
  induction entries with
  | nil => intro okc flc calls; simp [blast_loop]
  | cons e rest ih =>
    intro okc flc calls
    by_cases hE : f e = EspErr.ok
    · rw [blast_loop, if_pos hE, ih]
      refine Prod.ext ?_ (Prod.ext ?_ ?_) <;>
        simp [List.countP_cons, hE] <;> omega
    · rw [blast_loop, if_neg hE, ih]
      refine Prod.ext ?_ (Prod.ext ?_ ?_) <;>
        simp [List.countP_cons, hE] <;> omega

/-- C6: for every enumerated allow list, blast_task calls the send
operation exactly once per recipient, sequentially and in list order
(the call trace is the entry list itself, whatever each call returns —
so an individual failure never stops later recipients being attempted),
and the counters satisfy ok + fail = N with ok counting exactly the
ESP_OK results; for the empty list this gives ok = 0, fail = 0 and zero
send calls. -/
theorem blast_task_spec (send_result : TokenEntry → EspErr)
    (entries : List TokenEntry) :
    (blast_task send_result entries).2.2 = entries ∧
    (blast_task send_result entries).1 + (blast_task send_result entries).2.1
      = entries.length ∧
    (blast_task send_result entries).1
      = entries.countP (fun e => decide (send_result e = EspErr.ok)) ∧
    (blast_task send_result entries).2.1
      = entries.countP (fun e => decide (send_result e ≠ EspErr.ok)) ∧
    (blast_task send_result []).1 = 0 ∧
    (blast_task send_result []).2.1 = 0 ∧
    (blast_task send_result []).2.2 = ([] : List TokenEntry) := by
  have h := blast_loop_spec send_result entries 0 0 []
  have hcnt : entries.countP (fun e => decide (send_result e = EspErr.ok)) +
      entries.countP (fun e => decide (send_result e ≠ EspErr.ok)) = entries.length := by
    have hl := List.length_eq_countP_add_countP
      (fun e => decide (send_result e = EspErr.ok)) entries
    rw [hl]
    congr 1
    apply List.countP_congr
    intro e _
    by_cases hE : send_result e = EspErr.ok <;> simp [hE]
  refine ⟨?_, ?_, ?_, ?_, rfl, rfl, rfl⟩ <;> rw [blast_task, h] <;> simpa using hcnt

/- ================================================================ -/
/- Section 5: APNs client (apns.c)                                  -/
/- ================================================================ -/

/-- apns_config_t: key id, team id, the .p8 private key PEM, bundle id
and the sandbox/production selector. -/
structure ApnsConfig where
  key_id : String
  team_id : String
  apns_key_pem : String
  bundle_id : String
  use_sandbox : Bool
deriving DecidableEq, Repr

/-- apns_notification_t (title/body/badge/optional sound and custom
payload fragment; badge < 0 means absent). -/
structure ApnsNotification where
  device_token : String
  title : String
  body : String
  badge : Int
  sound : Option String
  custom_payload : Option String
deriving DecidableEq, Repr

/-- The static JWT cache of apns.c: s_jwt_cache and s_jwt_generated_at
(0 = never generated). -/
structure JwtCacheState where
  jwt_cache : String
  generated_at : Int
deriving DecidableEq, Repr

/-- JWT_VALID_SECONDS (55 min, below Apple's 1 h refresh limit). -/
def JWT_VALID_SECONDS : Int := 3300

/-- What one round of the send/receive loop does to the static callback
context: whether sh2lib_execute returns 0, the response bytes the recv
callback delivers during the round, and whether the round sees
DATA_RECV_FRAME_COMPLETE / DATA_RECV_RST_STREAM (setting s_resp_done). -/
structure RoundEffect where
  exec_ok : Bool
  data : List Char
  frame_complete : Bool
deriving DecidableEq, Repr

/-- apns_recv_cb body accumulation: append into the 512-byte s_resp_body
buffer, truncating to the remaining space (511 - current length, one
byte reserved for the terminator). -/
def recvAppend (body data : List Char) : List Char :=
  body ++ data.take (511 - body.length)

/-- Step 7 of apns_send_notification: the bounded polling loop
`while (!s_resp_done && rounds < 150)`; each round drives sh2lib_execute
(callbacks may append body data and set the done flag), and an execute
error breaks out of the loop.  State is (s_resp_done, s_resp_body);
`fuel` counts the remaining rounds, starting at 150. -/
def pollLoop (net : Nat → RoundEffect) (round fuel : Nat)
    (st : Bool × List Char) : Bool × List Char :=
  match fuel with
  | 0 => st
  | Nat.succ fuel1 =>
    if st.1 then st
    else
      let e := net round
      let st1 := (st.1 || e.frame_complete, recvAppend st.2 e.data)
      if e.exec_ok then pollLoop net (round + 1) fuel1 st1 else st1

/-- strncmp-style check that `needle` occurs at the head of `hay`. -/
def headMatch : List Char → List Char → Bool
  | [], _ => true
  | _ :: _, [] => false
  | n :: ns, h :: hs => n == h && headMatch ns hs

/-- strstr(hay, needle) != NULL, i.e. `needle` occurs somewhere in
`hay`. -/
def strstrB (needle : List Char) : List Char → Bool
  | [] => headMatch needle []
  | c :: rest => headMatch needle (c :: rest) || strstrB needle rest

/-- The "unregistered recipient" marker the code greps the response body
for. -/
def unregisteredMarker : List Char := "Unregistered".toList

/-- Step 8 of apns_send_notification: classify the post-loop response
state.  A completed response with a non-empty body is an error body:
APNS_ERR_UNREGISTERED when it contains the marker, ESP_FAIL otherwise; a
completed response with an empty body is ESP_OK; no completed response
within the bound (timeout) is ESP_FAIL. -/
def apns_classify (resp_done : Bool) (resp_body : List Char) : EspErr :=
  if resp_done ∧ resp_body.length > 0 then
    if strstrB unregisteredMarker resp_body then .unregistered else .fail
  else if resp_done ∧ resp_body.length = 0 then .ok
  else .fail

/-- Environment oracle for one apns_send_notification call: the outcome
of generate_jwt (none = failure; this abstracts the mbedtls key parse,
base64url encoding, SHA-256, ECDSA signing and DRBG — note it is a
function of the config and the current time only), success of
sh2lib_connect, success of the POST submission, and the transport's
behavior in each polling round. -/
structure SendEnv where
  gen_jwt : ApnsConfig → Int → Option String
  connect_ok : Bool
  submit_ok : Bool
  net : Nat → RoundEffect

/-- Observables of one apns_send_notification call: the JWT cache state
after the call, the returned esp_err_t, the JWT used to build the
`bearer` authorization header (none when the call failed before building
it), and whether generate_jwt ran (key parse / hash / sign work). -/
structure SendResult where
  state : JwtCacheState
  ret : EspErr
  auth_jwt : Option String
  signing_attempted : Bool
deriving DecidableEq, Repr

/-- Steps 2-8 of apns_send_notification after the JWT step: build the
JSON payload (cJSON, abstracted — it fails only on allocation), the
request path and the `bearer <s_jwt_cache>` authorization header,
connect, submit, poll and classify.  `ret0` is the value the C `ret`
variable has on entry — ESP_OK when the JWT was just refreshed, ESP_FAIL
on a cache hit — and is what a connect or submit failure returns via
`goto done`. -/
def sendAfterJwt (env : SendEnv) (st : JwtCacheState) (ret0 : EspErr)
    (signed_now : Bool) : SendResult :=
  if env.connect_ok = false then ⟨st, ret0, some st.jwt_cache, signed_now⟩
  else if env.submit_ok = false then ⟨st, ret0, some st.jwt_cache, signed_now⟩
  else
    let pr := pollLoop env.net 0 150 (false, [])
    ⟨st, apns_classify pr.1 pr.2, some st.jwt_cache, signed_now⟩

/-- apns_send_notification (apns.c), under the process-wide mutex.
Step 1: when the cache is empty (s_jwt_generated_at == 0) or at least
JWT_VALID_SECONDS old, call generate_jwt with the passed config and on
success record generated_at = now (a failed generate_jwt returns its
error immediately); otherwise reuse the cached token unchanged with no
signing work.  The notification argument only shapes the JSON payload
and the request path, which the modelled observables do not include. -/
def apns_send_notification (env : SendEnv) (config : ApnsConfig)
    (_notification : ApnsNotification) (st : JwtCacheState) (now : Int) :
    SendResult :=
  if st.generated_at = 0 ∨ JWT_VALID_SECONDS ≤ now - st.generated_at then
    match env.gen_jwt config now with
    | none => ⟨st, .fail, none, true⟩
    | some j => sendAfterJwt env ⟨j, now⟩ .ok true
  else sendAfterJwt env st .fail false

theorem sendAfterJwt_fields (env : SendEnv) (st : JwtCacheState)
    (ret0 : EspErr) (b : Bool) :
    (sendAfterJwt env st ret0 b).state = st ∧
    (sendAfterJwt env st ret0 b).auth_jwt = some st.jwt_cache ∧
    (sendAfterJwt env st ret0 b).signing_attempted = b := by
  unfold sendAfterJwt
  split
  · exact ⟨rfl, rfl, rfl⟩
  split
  · exact ⟨rfl, rfl, rfl⟩
  · exact ⟨rfl, rfl, rfl⟩

/-- C3: a call that generated and cached a JWT at time t leaves the cache
at ⟨j, t⟩; every later call within the validity window (t' - t <
JWT_VALID_SECONDS, cache non-empty since t ≠ 0) uses that cached
credential byte-identically in its authorization header, performs no
signing work, and leaves the cache untouched; and — for arbitrary call
parameters — signing work happens exactly when the cache is empty
(generated_at = 0) or at least JWT_VALID_SECONDS old. -/
theorem jwt_cache_hit (e1 e2 e3 : SendEnv) (c c3 : ApnsConfig)
    (n1 n2 n3 : ApnsNotification) (st0 st3 : JwtCacheState)
    (t t' now3 : Int) (j : String)
    (hmiss : st0.generated_at = 0 ∨ JWT_VALID_SECONDS ≤ t - st0.generated_at)
    (hgen : e1.gen_jwt c t = some j)
    (ht0 : t ≠ 0) (hle : t ≤ t') (hwin : t' - t < JWT_VALID_SECONDS) :
    (apns_send_notification e1 c n1 st0 t).state = ⟨j, t⟩ ∧
    (apns_send_notification e2 c n2
        (apns_send_notification e1 c n1 st0 t).state t').auth_jwt = some j ∧
    (apns_send_notification e2 c n2
        (apns_send_notification e1 c n1 st0 t).state t').signing_attempted = false ∧
    (apns_send_notification e2 c n2
        (apns_send_notification e1 c n1 st0 t).state t').state
      = (apns_send_notification e1 c n1 st0 t).state ∧
    ((apns_send_notification e3 c3 n3 st3 now3).signing_attempted = true ↔
      (st3.generated_at = 0 ∨ JWT_VALID_SECONDS ≤ now3 - st3.generated_at)) := by
  have h1 : apns_send_notification e1 c n1 st0 t = sendAfterJwt e1 ⟨j, t⟩ .ok true := by
    unfold apns_send_notification
    rw [if_pos hmiss, hgen]
  have hst1 : (apns_send_notification e1 c n1 st0 t).state = ⟨j, t⟩ := by
    rw [h1]
    exact (sendAfterJwt_fields e1 ⟨j, t⟩ .ok true).1
  have hcond : ¬ ((JwtCacheState.mk j t).generated_at = 0 ∨
      JWT_VALID_SECONDS ≤ t' - (JwtCacheState.mk j t).generated_at) := by
    rintro (h | h)
    · exact ht0 h
    · simp only [JWT_VALID_SECONDS] at h hwin
      omega
  have h2 : apns_send_notification e2 c n2 ⟨j, t⟩ t'
      = sendAfterJwt e2 ⟨j, t⟩ .fail false := by
    unfold apns_send_notification
    rw [if_neg hcond]
  refine ⟨hst1, ?_, ?_, ?_, ?_⟩
  · rw [hst1, h2]
    exact (sendAfterJwt_fields e2 ⟨j, t⟩ .fail false).2.1
  · rw [hst1, h2]
    exact (sendAfterJwt_fields e2 ⟨j, t⟩ .fail false).2.2
  · rw [hst1, h2, (sendAfterJwt_fields e2 ⟨j, t⟩ .fail false).1]
  · by_cases hc3 : st3.generated_at = 0 ∨
        JWT_VALID_SECONDS ≤ now3 - st3.generated_at
    · unfold apns_send_notification
      rw [if_pos hc3]
      cases hg : e3.gen_jwt c3 now3 with
      | none => simpa using hc3
      | some j3 =>
        rw [(sendAfterJwt_fields e3 ⟨j3, now3⟩ .ok true).2.2]
        simpa using hc3
    · unfold apns_send_notification
      rw [if_neg hc3]
      rw [(sendAfterJwt_fields e3 st3 .fail false).2.2]
      simp [hc3]

/-- C9: the credential cache is keyed only by elapsed time, never by the
configuration.  After a call generated the JWT under config c1 at time t
(t ≠ 0), any call within the validity window that passes a different
config c2 still builds its authorization header from the token signed
under c1, performs no signing work, and leaves the cache untouched; and
whether a call regenerates at all is decided without consulting the
config: the signing_attempted observable is the same for any two configs
at the same cache state and time. -/
theorem jwt_cache_ignores_config (e1 e2 e3 : SendEnv) (c1 c2 c3 c4 : ApnsConfig)
    (n1 n2 n3 : ApnsNotification) (st0 st3 : JwtCacheState)
    (t t' now3 : Int) (j : String)
    (hmiss : st0.generated_at = 0 ∨ JWT_VALID_SECONDS ≤ t - st0.generated_at)
    (hgen : e1.gen_jwt c1 t = some j)
    (ht0 : t ≠ 0) (hle : t ≤ t') (hwin : t' - t < JWT_VALID_SECONDS) :
    (apns_send_notification e2 c2 n2
        (apns_send_notification e1 c1 n1 st0 t).state t').auth_jwt = some j ∧
    (apns_send_notification e2 c2 n2
        (apns_send_notification e1 c1 n1 st0 t).state t').signing_attempted = false ∧
    (apns_send_notification e2 c2 n2
        (apns_send_notification e1 c1 n1 st0 t).state t').state
      = (apns_send_notification e1 c1 n1 st0 t).state ∧
    (apns_send_notification e3 c3 n3 st3 now3).signing_attempted
      = (apns_send_notification e3 c4 n3 st3 now3).signing_attempted := by
  have h1 : apns_send_notification e1 c1 n1 st0 t = sendAfterJwt e1 ⟨j, t⟩ .ok true := by
    unfold apns_send_notification
    rw [if_pos hmiss, hgen]
  have hst1 : (apns_send_notification e1 c1 n1 st0 t).state = ⟨j, t⟩ := by
    rw [h1]
    exact (sendAfterJwt_fields e1 ⟨j, t⟩ .ok true).1
  have hcond : ¬ ((JwtCacheState.mk j t).generated_at = 0 ∨
      JWT_VALID_SECONDS ≤ t' - (JwtCacheState.mk j t).generated_at) := by
    rintro (h | h)
    · exact ht0 h
    · simp only [JWT_VALID_SECONDS] at h hwin
      omega
  have h2 : apns_send_notification e2 c2 n2 ⟨j, t⟩ t'
      = sendAfterJwt e2 ⟨j, t⟩ .fail false := by
    unfold apns_send_notification
    rw [if_neg hcond]
  have hsig : ∀ (cc : ApnsConfig),
      (apns_send_notification e3 cc n3 st3 now3).signing_attempted
        = (if st3.generated_at = 0 ∨ JWT_VALID_SECONDS ≤ now3 - st3.generated_at
           then true else false) := by
    intro cc
    by_cases hc3 : st3.generated_at = 0 ∨ JWT_VALID_SECONDS ≤ now3 - st3.generated_at
    · unfold apns_send_notification
      rw [if_pos hc3, if_pos hc3]
      cases hg : e3.gen_jwt cc now3 with
      | none => rfl
      | some j3 => exact (sendAfterJwt_fields e3 ⟨j3, now3⟩ .ok true).2.2
    · unfold apns_send_notification
      rw [if_neg hc3, if_neg hc3]
      exact (sendAfterJwt_fields e3 st3 .fail false).2.2
  refine ⟨?_, ?_, ?_, ?_⟩
  · rw [hst1, h2]
    exact (sendAfterJwt_fields e2 ⟨j, t⟩ .fail false).2.1
  · rw [hst1, h2]
    exact (sendAfterJwt_fields e2 ⟨j, t⟩ .fail false).2.2
  · rw [hst1, h2, (sendAfterJwt_fields e2 ⟨j, t⟩ .fail false).1]
  · rw [hsig c3, hsig c4]

theorem sendAfterJwt_ret_poll (env : SendEnv) (st : JwtCacheState)
    (ret0 : EspErr) (b : Bool)
    (hc : env.connect_ok = true) (hs : env.submit_ok = true) :
    (sendAfterJwt env st ret0 b).ret
      = apns_classify (pollLoop env.net 0 150 (false, [])).1
          (pollLoop env.net 0 150 (false, [])).2 := by
  unfold sendAfterJwt
  rw [if_neg (by simp [hc]), if_neg (by simp [hs])]

/-- C4 amended: after the bounded polling loop (at most 150 rounds) the
send result is the classification of the final (done, body) state, and
that classification maps the spec's four cases as the code actually
does: timeout (not done) gives ESP_FAIL; a completed empty body gives
ESP_OK; a completed non-empty body with the "Unregistered" marker gives
APNS_ERR_UNREGISTERED; a completed non-empty body without it gives
ESP_FAIL — so Ok and UnregisteredRecipient are distinct result values,
but the Timeout and ProtocolError cases share the single value ESP_FAIL
(and the body is only logged, not carried in the result). -/
theorem apns_send_outcome (e : SendEnv) (cfg : ApnsConfig) (n : ApnsNotification)
    (st : JwtCacheState) (now : Int) (d : Bool) (b : List Char)
    (hc : e.connect_ok = true) (hsub : e.submit_ok = true)
    (hj : (st.generated_at = 0 ∨ JWT_VALID_SECONDS ≤ now - st.generated_at) →
          (e.gen_jwt cfg now).isSome = true) :
    (apns_send_notification e cfg n st now).ret
      = apns_classify (pollLoop e.net 0 150 (false, [])).1
          (pollLoop e.net 0 150 (false, [])).2 ∧
    (d = false → apns_classify d b = EspErr.fail) ∧
    (d = true → b = [] → apns_classify d b = EspErr.ok) ∧
    (d = true → b ≠ [] → strstrB unregisteredMarker b = true →
       apns_classify d b = EspErr.unregistered) ∧
    (d = true → b ≠ [] → strstrB unregisteredMarker b = false →
       apns_classify d b = EspErr.fail) ∧
    (EspErr.ok ≠ EspErr.fail ∧ EspErr.unregistered ≠ EspErr.fail ∧
     EspErr.ok ≠ EspErr.unregistered) := by
  refine ⟨?_, ?_, ?_, ?_, ?_, by decide, by decide, by decide⟩
  · by_cases hcond : st.generated_at = 0 ∨ JWT_VALID_SECONDS ≤ now - st.generated_at
    · cases hg : e.gen_jwt cfg now with
      | none =>
        have := hj hcond
        rw [hg] at this
        simp at this
      | some j =>
        unfold apns_send_notification
        rw [if_pos hcond, hg]
        exact sendAfterJwt_ret_poll e ⟨j, now⟩ .ok true hc hsub
    · unfold apns_send_notification
      rw [if_neg hcond]
      exact sendAfterJwt_ret_poll e st .fail false hc hsub
  · intro hd
    simp [apns_classify, hd]
  · intro hd hb
    simp [apns_classify, hd, hb]
  · intro hd hb hm
    have hlen : 0 < b.length := List.length_pos.mpr hb
    simp [apns_classify, hd, hm, hlen]
  · intro hd hb hm
    have hlen : 0 < b.length := List.length_pos.mpr hb
    simp [apns_classify, hd, hm, hlen]

/-- A concrete config used in witnesses. -/
def cfgW : ApnsConfig := ⟨"KEYID1", "TEAMID1", "PEM1", "bundle.example", true⟩

/-- A second, different concrete config. -/
def cfgW2 : ApnsConfig := ⟨"KEYID2", "TEAMID2", "PEM2", "bundle.other", false⟩

/-- A concrete notification used in witnesses. -/
def notifW : ApnsNotification := ⟨"devtok", "title", "body", -1, none, none⟩

/-- Environment whose transport completes immediately with an empty body
(APNs 200 OK). -/
def envDoneEmpty : SendEnv := ⟨fun _ _ => some "J", true, true, fun _ => ⟨true, [], true⟩⟩

/-- Environment whose transport never completes the response: the loop
runs all 150 rounds and times out. -/
def envTimeoutW : SendEnv := ⟨fun _ _ => some "JNEW", true, true, fun _ => ⟨true, [], false⟩⟩

/-- Environment whose transport completes in round 0 with a non-empty
error body that does not contain the "Unregistered" marker. -/
def envProtoW : SendEnv :=
  ⟨fun _ _ => some "JNEW", true, true, fun _ => ⟨true, "BadDeviceToken".toList, true⟩⟩

/-- Witness for C3: generate at t = 10 into an empty cache, call again at
t' = 20 (within the window): the cached token "J" is reused unchanged
with no signing; and at a warm cache ⟨"X", 50⟩ at time 60 the
regeneration condition is (decidably) false. -/
theorem jwt_cache_hit_witness :
    (apns_send_notification envDoneEmpty cfgW notifW ⟨"", 0⟩ 10).state = ⟨"J", 10⟩ ∧
    (apns_send_notification envDoneEmpty cfgW notifW
        (apns_send_notification envDoneEmpty cfgW notifW ⟨"", 0⟩ 10).state 20).auth_jwt
      = some "J" ∧
    (apns_send_notification envDoneEmpty cfgW notifW
        (apns_send_notification envDoneEmpty cfgW notifW ⟨"", 0⟩ 10).state 20).signing_attempted
      = false ∧
    (apns_send_notification envDoneEmpty cfgW notifW
        (apns_send_notification envDoneEmpty cfgW notifW ⟨"", 0⟩ 10).state 20).state
      = (apns_send_notification envDoneEmpty cfgW notifW ⟨"", 0⟩ 10).state ∧
    ((apns_send_notification envDoneEmpty cfgW notifW ⟨"X", 50⟩ 60).signing_attempted = true ↔
      ((JwtCacheState.mk "X" 50).generated_at = 0 ∨
        JWT_VALID_SECONDS ≤ 60 - (JwtCacheState.mk "X" 50).generated_at)) :=
  jwt_cache_hit envDoneEmpty envDoneEmpty envDoneEmpty cfgW cfgW notifW notifW notifW
    ⟨"", 0⟩ ⟨"X", 50⟩ 10 20 60 "J" (Or.inl rfl) rfl (by decide) (by decide) (by decide)

/-- Witness for C9: the JWT is generated under cfgW at t = 10; the call
at t' = 20 passes the different cfgW2 and still reuses the token signed
under cfgW; the regeneration decision is config-independent at a
concrete state. -/
theorem jwt_cache_ignores_config_witness :
    (apns_send_notification envDoneEmpty cfgW2 notifW
        (apns_send_notification envDoneEmpty cfgW notifW ⟨"", 0⟩ 10).state 20).auth_jwt
      = some "J" ∧
    (apns_send_notification envDoneEmpty cfgW2 notifW
        (apns_send_notification envDoneEmpty cfgW notifW ⟨"", 0⟩ 10).state 20).signing_attempted
      = false ∧
    (apns_send_notification envDoneEmpty cfgW2 notifW
        (apns_send_notification envDoneEmpty cfgW notifW ⟨"", 0⟩ 10).state 20).state
      = (apns_send_notification envDoneEmpty cfgW notifW ⟨"", 0⟩ 10).state ∧
    (apns_send_notification envDoneEmpty cfgW notifW ⟨"X", 50⟩ 60).signing_attempted
      = (apns_send_notification envDoneEmpty cfgW2 notifW ⟨"X", 50⟩ 60).signing_attempted :=
  jwt_cache_ignores_config envDoneEmpty envDoneEmpty envDoneEmpty cfgW cfgW2 cfgW cfgW2
    notifW notifW notifW ⟨"", 0⟩ ⟨"X", 50⟩ 10 20 60 "J"
    (Or.inl rfl) rfl (by decide) (by decide) (by decide)

/-- C4 counterexample: the claim's four cases do not map to four distinct
result values.  With a warm cache, a call whose transport never
completes (the spec's Timeout case: final done flag false) and a call
whose transport completes with a non-empty, marker-free body (the spec's
ProtocolError case) both return the same value ESP_FAIL, and no returned
value carries the body. -/
theorem apns_timeout_protocol_same_value :
    (apns_send_notification envTimeoutW cfgW notifW ⟨"JCACHED", 100⟩ 200).ret
      = EspErr.fail ∧
    (apns_send_notification envProtoW cfgW notifW ⟨"JCACHED", 100⟩ 200).ret
      = EspErr.fail ∧
    (pollLoop envTimeoutW.net 0 150 (false, [])).1 = false ∧
    (pollLoop envProtoW.net 0 150 (false, [])).1 = true ∧
    (pollLoop envProtoW.net 0 150 (false, [])).2 ≠ [] ∧
    strstrB unregisteredMarker (pollLoop envProtoW.net 0 150 (false, [])).2 = false := by
  decide

/-- Witness for C4's amended statement at the immediately-completing
empty-body environment with a warm cache (instantiated at d = true,
b = []). -/
theorem apns_send_outcome_witness :
    (apns_send_notification envDoneEmpty cfgW notifW ⟨"JCACHED", 100⟩ 200).ret
      = apns_classify (pollLoop envDoneEmpty.net 0 150 (false, [])).1
          (pollLoop envDoneEmpty.net 0 150 (false, [])).2 ∧
    (true = false → apns_classify true [] = EspErr.fail) ∧
    (true = true → ([] : List Char) = [] → apns_classify true [] = EspErr.ok) ∧
    (true = true → ([] : List Char) ≠ [] → strstrB unregisteredMarker [] = true →
       apns_classify true [] = EspErr.unregistered) ∧
    (true = true → ([] : List Char) ≠ [] → strstrB unregisteredMarker [] = false →
       apns_classify true [] = EspErr.fail) ∧
    (EspErr.ok ≠ EspErr.fail ∧ EspErr.unregistered ≠ EspErr.fail ∧
     EspErr.ok ≠ EspErr.unregistered) :=
  apns_send_outcome envDoneEmpty cfgW notifW ⟨"JCACHED", 100⟩ 200 true []
    rfl rfl (fun _ => rfl)
